import Mathlib

/-
Verification of the core subsystems of a small x86_64 kernel:
PCI enumeration, PIT clock, PhysBuf DMA buffers, the RTL8139 receive
path, the notification-waiter futures and the network pump loop.
Each Rust function is shallowly embedded as an executable Lean
definition; machine integers are modelled as Nat with explicit
modular reduction where overflow matters.
-/

/- ===================== PCI (src/pci.rs) ===================== -/

/-- View of a 32-bit config-space register: 16-bit lane `which`. -/
def Register.word (inner : Nat) (which : Nat) : Nat :=
  (inner >>> (16 * which)) % 65536

/-- View of a 32-bit config-space register: 8-bit lane `which`. -/
def Register.byte (inner : Nat) (which : Nat) : Nat :=
  (inner >>> (8 * which)) % 256

/-- Config space as read-only data: bus → slot → register → 32-bit value
(function 0 throughout, as in the scanner). -/
abbrev Cfg := Nat → Nat → Nat → Nat

structure PciDevice where
  bus : Nat
  slot : Nat
  function : Nat
  vendor : Nat
  id : Nat
  revision : Nat
  prog : Nat
  classCode : Nat
  subclass : Nat
  base_addresses : List Nat
deriving Repr, DecidableEq

/-- PciDevice::new — snapshot of registers 0, 2 and the six BARs. -/
def pciDeviceNew (cfg : Cfg) (bus slot : Nat) : PciDevice :=
  let data0 := cfg bus slot 0
  let data2 := cfg bus slot 2
  { bus := bus
    slot := slot
    function := 0
    id := Register.word data0 1
    vendor := Register.word data0 0
    classCode := Register.byte data2 3
    subclass := Register.byte data2 2
    prog := Register.byte data2 1
    revision := Register.byte data2 0
    base_addresses := (List.range 6).map (fun i => cfg bus slot (4 + i)) }

/-- check_device — probe word 1 of register 0; 0xFFFF means absent. -/
def check_device (cfg : Cfg) (bus slot : Nat) : Option PciDevice :=
  if Register.word (cfg bus slot 0) 1 = 0xFFFF then none
  else some (pciDeviceNew cfg bus slot)

/-- Number of config-space reads performed while scanning one (bus, slot):
one probe read, plus eight more (registers 0, 2 and six BARs) when present. -/
def scanReadsFor (cfg : Cfg) (bus slot : Nat) : Nat :=
  if Register.word (cfg bus slot 0) 1 = 0xFFFF then 1 else 9

/-- The device list produced by a full scan: buses 0–254, slots 0–31. -/
def scanList (cfg : Cfg) : List PciDevice :=
  (List.range 255).flatMap
    (fun bus => (List.range 32).filterMap (fun slot => check_device cfg bus slot))

/-- Total config-space reads of a full scan. -/
def totalReads (cfg : Cfg) : Nat :=
  ((List.range 255).map
    (fun bus => ((List.range 32).map (fun slot => scanReadsFor cfg bus slot)).sum)).sum

/-- scan_devices — early-returns if the registry is already initialized;
otherwise initializes it and performs the scan.  Returns the new registry
state and the number of config-space reads performed by this call. -/
def scan_devices (cfg : Cfg) (st : Option (List PciDevice)) :
    Option (List PciDevice) × Nat :=
  match st with
  | some l => (some l, 0)
  | none => (some (scanList cfg), totalReads cfg)

/-- pci_write — update one register of a device's register file. -/
def pci_write_reg (regs : Nat → Nat) (r v : Nat) : Nat → Nat :=
  fun q => if q = r then v else regs q

/-- enable_mastering — read command register 1, OR in bit 2, write it back. -/
def enable_mastering (regs : Nat → Nat) : Nat → Nat :=
  pci_write_reg regs 1 ((regs 1) ||| 0x4)

/-- io_base — enable bus mastering, then return the BAR0 snapshot cast to
u16 and masked with 0xFFF0.  Result: (new register file, returned value). -/
def io_base (dev : PciDevice) (regs : Nat → Nat) : (Nat → Nat) × Nat :=
  (enable_mastering regs, (dev.base_addresses.headD 0 % 65536) &&& 0xFFF0)

/- ===================== Clock (src/time.rs) ===================== -/

def PIT_FREQUENCY : ℚ := 3579545 / 3

def PIT_DIVIDER : Nat := 1193

def PIT_INTERVAL : ℚ := (PIT_DIVIDER : ℚ) / PIT_FREQUENCY

/-- time() — the tick counter times the PIT interval, in seconds. -/
def time (clock : Nat) : ℚ := (clock : ℚ) * PIT_INTERVAL

/-- Rust `as i64` on a float value: truncation toward zero. -/
def f64_as_i64 (q : ℚ) : ℤ := Int.tdiv q.num (q.den : ℤ)

/-- time_ms() — `(time() * 1000.0) as i64`. -/
def time_ms (clock : Nat) : ℤ := f64_as_i64 (time clock * 1000)

/-- set_pit_frequency_divider — the sequence of (port, byte) writes:
command byte to 0x43, then divider low byte and high byte to 0x40+channel. -/
def set_pit_frequency_divider (divider channel : Nat) : List (Nat × Nat) :=
  let operating_mode := 6
  let access_mode := 3
  [ (0x43, (((channel <<< 6) ||| (access_mode <<< 4)) ||| operating_mode) % 256),
    (0x40 + channel, divider % 256),
    (0x40 + channel, divider / 256 % 256) ]

/- ===================== PhysBuf (src/allocator.rs) ===================== -/

/-- Translation of a virtual address through a 4 KiB page table
`pt : page index → frame index`. -/
def phys_addr (pt : Nat → Nat) (v : Nat) : Nat :=
  pt (v / 4096) * 4096 + v % 4096

def U64MOD : Nat := 2 ^ 64

/-- The acceptance test of PhysBuf::from: the wrapping u64 difference of the
physical addresses of the last and first byte must equal len - 1.
A buffer is successfully returned exactly when this check passes. -/
def physbuf_check (pt : Nat → Nat) (base len : Nat) : Bool :=
  len - 1 == (phys_addr pt (base + (len - 1)) + U64MOD - phys_addr pt base) % U64MOD

/-- A page table that displaces the middle page: pages 0 and 2 are
identity-mapped, page 1 goes to frame 100. -/
def displacedPT : Nat → Nat := fun p => if p = 1 then 100 else p

/- ============== RTL8139 receive path (src/drivers/net/rtl8139.rs) ============== -/

def RX_BUFFER_PADDING : Nat := 16

def RX_BUFFER_LEN : Nat := 8192 + 1500 + 16

/-- Device state visible to receive_packet: command register byte, the CBA
read from port 0x3A, CAPR, the rx ring contents, and the driver's offset. -/
structure RxState where
  cmd : Nat
  cba : Nat
  capr : Nat
  buf : Nat → Nat
  rxOffset : Nat

/-- offset = (CAPR + 16) mod 2^16. -/
def rx_read_offset (s : RxState) : Nat := (s.capr + RX_BUFFER_PADDING) % 65536

/-- Little-endian header word at the read offset. -/
def rx_header (s : RxState) : Nat :=
  s.buf (rx_read_offset s) + 256 * s.buf (rx_read_offset s + 1)

/-- Little-endian length word at offset + 2. -/
def rx_packet_len (s : RxState) : Nat :=
  s.buf (rx_read_offset s + 2) + 256 * s.buf (rx_read_offset s + 3)

/-- The advanced read offset: (offset + n + 4 + 3) aligned down to 4. -/
def rx_advanced_offset (s : RxState) : Nat :=
  4 * ((rx_read_offset s + rx_packet_len s + 4 + 3) / 4)

/-- The two places where `(x mod RX_BUFFER_LEN) - 16` could underflow. -/
inductive RxUnderflow
  | rokClear
  | advance
deriving Repr, DecidableEq

/-- receive_packet — returns the updated state and an optional packet, or
an explicit `RxUnderflow` where the Rust usize subtraction would underflow.
Ring bytes are read through the total function `buf`. -/
def receive_packet (s : RxState) :
    Except RxUnderflow (RxState × Option (List Nat)) :=
  if s.cmd &&& 1 = 1 then Except.ok (s, none)
  else
    if rx_header s &&& 1 ≠ 1 then
      if s.cba % RX_BUFFER_LEN < RX_BUFFER_PADDING then Except.error RxUnderflow.rokClear
      else
        Except.ok ({ s with capr := (s.cba % RX_BUFFER_LEN - RX_BUFFER_PADDING) % 65536 }, none)
    else
      if rx_advanced_offset s % RX_BUFFER_LEN < RX_BUFFER_PADDING then
        Except.error RxUnderflow.advance
      else
        Except.ok
          ({ s with
              rxOffset := rx_advanced_offset s
              capr := (rx_advanced_offset s % RX_BUFFER_LEN - RX_BUFFER_PADDING) % 65536 },
            some ((List.range (rx_packet_len s - 4)).map
              (fun k => s.buf (rx_read_offset s + 4 + k))))

/-- Whether receive_packet completed without an underflow. -/
def rxOk (r : Except RxUnderflow (RxState × Option (List Nat))) : Bool :=
  match r with
  | Except.ok _ => true
  | Except.error _ => false

/- ========== Notification waiters (src/task/network.rs, rtl8139.rs, drivers/net/mod.rs) ========== -/

structure WaiterState where
  ready : Bool
  registered : Bool
deriving Repr, DecidableEq

inductive PollResult
  | isReady
  | isPending
deriving Repr, DecidableEq

/-- notify() — sets the ready flag (then wakes the registered waker). -/
def waiterNotify (s : WaiterState) : WaiterState := { s with ready := true }

/-- WaitForTx::poll — check ready (consume, Ready); else register the waker,
re-read ready (consume, Ready); else Pending. -/
def waitForTxPoll (s : WaiterState) : WaiterState × PollResult :=
  if s.ready then ({ s with ready := false }, PollResult.isReady)
  else
    let s1 := { s with registered := true }
    if s1.ready then ({ s1 with ready := false }, PollResult.isReady)
    else (s1, PollResult.isPending)

/-- WaitForTx::poll with a notify() interleaved between the first read of
ready and the waker registration. -/
def waitForTxPollNotifyBetween (s : WaiterState) : WaiterState × PollResult :=
  if s.ready then ({ s with ready := false }, PollResult.isReady)
  else
    let sn := waiterNotify s
    let s1 := { sn with registered := true }
    if s1.ready then ({ s1 with ready := false }, PollResult.isReady)
    else (s1, PollResult.isPending)

/-- Rtl8139Recv::poll — check ready (consume, Ready); else register the waker
and return Pending.  There is no re-read; the whole body runs inside
without_interrupts. -/
def rtlRecvPoll (s : WaiterState) : WaiterState × PollResult :=
  if s.ready then ({ s with ready := false }, PollResult.isReady)
  else ({ s with registered := true }, PollResult.isPending)

/-- Rtl8139Recv::poll with a notify() interleaved between the first read of
ready and the waker registration. -/
def rtlRecvPollNotifyBetween (s : WaiterState) : WaiterState × PollResult :=
  if s.ready then ({ s with ready := false }, PollResult.isReady)
  else
    let sn := waiterNotify s
    ({ sn with registered := true }, PollResult.isPending)

/-- SocketRecvWaiter::poll — check ready (Ready, without consuming); else
register the waker and return Pending.  No re-read. -/
def sockRecvPoll (s : WaiterState) : WaiterState × PollResult :=
  if s.ready then (s, PollResult.isReady)
  else ({ s with registered := true }, PollResult.isPending)

/-- SocketRecvWaiter::poll with a notify() interleaved between the first
read of ready and the waker registration. -/
def sockRecvPollNotifyBetween (s : WaiterState) : WaiterState × PollResult :=
  if s.ready then (s, PollResult.isReady)
  else
    let sn := waiterNotify s
    ({ sn with registered := true }, PollResult.isPending)

/- ========== Pump loop (src/task/network.rs) ========== -/

/-- The polling phase shared by pump_interfaces and keep_pumping_interfaces:
`changed = changed || iface.poll()` over the interface list.  `results` gives
each interface's poll result; an event (i, irqOff) records that interface i
was actually polled, with irqOff telling whether interrupts were disabled
around that call.  Rust `||` short-circuits: once `changed` is true the
remaining interfaces are not polled. -/
def pollPhaseGo (irqOff : Bool) : List Bool → Nat → Bool → Bool × List (Nat × Bool)
  | [], _, changed => (changed, [])
  | r :: rs, i, changed =>
    if changed then
      pollPhaseGo irqOff rs (i + 1) changed
    else
      let rest := pollPhaseGo irqOff rs (i + 1) r
      (rest.1, (i, irqOff) :: rest.2)

/-- The polling phase of one iteration of keep_pumping_interfaces (the pump
task's loop): polls run with interrupts enabled. -/
def keep_pumping_poll_phase (results : List Bool) : Bool × List (Nat × Bool) :=
  pollPhaseGo false results 0 false

/-- pump_interfaces: each poll is wrapped in without_interrupts. -/
def pump_interfaces (results : List Bool) : Bool × List (Nat × Bool) :=
  pollPhaseGo true results 0 false

/- ========== ICMP socket wrapper (src/drivers/net/mod.rs) ========== -/

inductive IcmpSendErr
  | unaddressable
  | bufferFull
deriving Repr, DecidableEq

inductive IcmpBindErr
  | invalidState
  | unaddressable
deriving Repr, DecidableEq

inductive IcmpRecvErr
  | exhausted
deriving Repr, DecidableEq

inductive IcmpSendOutcome
  | sent
  | panicked
deriving Repr, DecidableEq

/-- IcmpSocket::send — the protocol engine's send result is unwrapped:
on Ok the representation is emitted and notify_tx runs; on Err the
kernel panics. -/
def icmp_socket_send (engine : Except IcmpSendErr Unit) : IcmpSendOutcome :=
  match engine with
  | Except.ok _ => IcmpSendOutcome.sent
  | Except.error _ => IcmpSendOutcome.panicked

/-- IcmpSocket::bind — delegates to the engine and returns its result. -/
def icmp_socket_bind (engine : Except IcmpBindErr Unit) : Except IcmpBindErr Unit :=
  engine

/-- IcmpSocket::try_recv — when can_recv() holds, returns the engine's recv
result verbatim; otherwise None (the caller awaits a state change). -/
def icmp_socket_try_recv (canRecv : Bool)
    (engine : Except IcmpRecvErr (List Nat × Nat)) :
    Option (Except IcmpRecvErr (List Nat × Nat)) :=
  if canRecv then some engine else none

/- ===================== Helper lemmas ===================== -/

theorem mod65536_and_fff0 (x : Nat) : (x % 65536) &&& 0xFFF0 = x &&& 0xFFF0 := by
  apply Nat.eq_of_testBit_eq
  intro i
  have h65536 : (65536 : Nat) = 2 ^ 16 := by norm_num
  rw [h65536]
  simp only [Nat.testBit_and, Nat.testBit_mod_two_pow]
  by_cases hi : i < 16
  · simp [hi]
  · have hf : Nat.testBit 0xFFF0 i = false := by
      apply Nat.testBit_lt_two_pow
      calc (0xFFF0 : Nat) < 2 ^ 16 := by norm_num
        _ ≤ 2 ^ i := Nat.pow_le_pow_right (by norm_num) (Nat.le_of_not_lt hi)
    simp [hi, hf]

theorem pollPhaseGo_true (irqOff : Bool) (rs : List Bool) (i : Nat) :
    pollPhaseGo irqOff rs i true = (true, []) := by
  induction rs generalizing i with
  | nil => rfl
  | cons r rs ih => simp [pollPhaseGo, ih]

theorem pollPhaseGo_changed (irqOff : Bool) (rs : List Bool) (i : Nat) :
    (pollPhaseGo irqOff rs i false).1 = rs.any id := by
  induction rs generalizing i with
  | nil => simp [pollPhaseGo]
  | cons r rs ih =>
    cases r with
    | true => simp [pollPhaseGo, pollPhaseGo_true]
    | false => simpa [pollPhaseGo] using ih (i + 1)

theorem pollPhaseGo_events (irqOff : Bool) (rs : List Bool) (i : Nat) :
    (pollPhaseGo irqOff rs i false).2
      = (List.range ((rs.takeWhile (fun r => !r)).length
          + if rs.any id then 1 else 0)).map (fun k => (k + i, irqOff)) := by
  induction rs generalizing i with
  | nil => simp [pollPhaseGo]
  | cons r rs ih =>
    cases r with
    | true =>
      have hr : List.range 1 = [0] := rfl
      simp [pollPhaseGo, pollPhaseGo_true, hr]
    | false =>
      have step : (pollPhaseGo irqOff (false :: rs) i false).2
          = (i, irqOff) :: (pollPhaseGo irqOff rs (i + 1) false).2 := by
        simp [pollPhaseGo]
      rw [step, ih (i + 1)]
      have htw : ((false :: rs).takeWhile (fun r => !r)).length
          = (rs.takeWhile (fun r => !r)).length + 1 := by
        simp [List.takeWhile_cons]
      have hany : (false :: rs).any id = rs.any id := by simp
      rw [htw, hany, Nat.add_right_comm, List.range_succ_eq_map]
      have hfe : ∀ k : Nat, k + 1 + i = k + (i + 1) := by omega
      simp [List.map_map, Function.comp, hfe]

theorem pollPhaseGo_flag (irqOff : Bool) (rs : List Bool) (i : Nat) (c : Bool) :
    ((pollPhaseGo irqOff rs i c).2.all (fun e => e.2 == irqOff)) = true := by
  induction rs generalizing i c with
  | nil => rfl
  | cons r rs ih => cases c <;> simp [pollPhaseGo, ih]

/- ===================== Claim theorems ===================== -/

/-- Claim C1, counterexample: the claim asserts that every waiter's poll
registers the waker and then re-reads ready before returning Pending, so
that a notify interleaved between the first read and the registration makes
that same poll return Ready.  For the NIC rx waiter and the socket-receive
waiter, a poll starting from ready = false with such an interleaved notify
still returns Pending. -/
theorem C1_waiter_race_counterexample :
    (rtlRecvPollNotifyBetween ⟨false, false⟩).2 = PollResult.isPending
  ∧ (sockRecvPollNotifyBetween ⟨false, false⟩).2 = PollResult.isPending := by
  decide

/-- Claim C1, amended: only the pump task's tx waiter re-reads ready after
registering the waker, so only it observes a notify interleaved between the
first read and the registration; the NIC rx waiter (whose poll runs entirely
with interrupts disabled, excluding the interleaving) and the socket-receive
waiter register the waker and return Pending without re-reading, leaving
ready set for the next poll. -/
theorem C1_waiter_race_amended (s : WaiterState) (h : s.ready = false) :
    (waitForTxPollNotifyBetween s).2 = PollResult.isReady
  ∧ (rtlRecvPollNotifyBetween s).2 = PollResult.isPending
  ∧ (rtlRecvPollNotifyBetween s).1.ready = true
  ∧ (sockRecvPollNotifyBetween s).2 = PollResult.isPending
  ∧ (sockRecvPollNotifyBetween s).1.ready = true := by
  simp [waitForTxPollNotifyBetween, rtlRecvPollNotifyBetween, sockRecvPollNotifyBetween,
    waiterNotify, h]

/-- Witness for C1_waiter_race_amended at the not-ready initial state. -/
theorem C1_waiter_race_witness :
    (⟨false, false⟩ : WaiterState).ready = false
  ∧ ((waitForTxPollNotifyBetween ⟨false, false⟩).2 = PollResult.isReady
    ∧ (rtlRecvPollNotifyBetween ⟨false, false⟩).2 = PollResult.isPending
    ∧ (rtlRecvPollNotifyBetween ⟨false, false⟩).1.ready = true
    ∧ (sockRecvPollNotifyBetween ⟨false, false⟩).2 = PollResult.isPending
    ∧ (sockRecvPollNotifyBetween ⟨false, false⟩).1.ready = true) :=
  ⟨rfl, C1_waiter_race_amended ⟨false, false⟩ rfl⟩

/-- Claim C2, counterexample: the PhysBuf acceptance check compares only the
physical addresses of the first and last byte.  Under a page table that
displaces the middle page, a buffer at virtual base 4095 of length 4098
passes the check, yet byte 1 is not physically adjacent to byte 0. -/
theorem C2_physbuf_counterexample :
    physbuf_check displacedPT 4095 4098 = true
  ∧ phys_addr displacedPT (4095 + 1) ≠ phys_addr displacedPT 4095 + 1 := by
  decide

/-- Claim C2, amended: a buffer accepted by the PhysBuf check (with the
physical addresses below 2^63, so the u64 difference cannot wrap) satisfies
the endpoint property: the physical address of byte len-1 equals the
physical address of byte 0 plus len-1.  Per-byte contiguity of the interior
is not implied by the check. -/
theorem C2_physbuf_endpoints (pt : Nat → Nat) (base len : Nat)
    (_hlen : 1 ≤ len)
    (hA : phys_addr pt base < 2 ^ 63)
    (hB : phys_addr pt (base + (len - 1)) < 2 ^ 63)
    (hL : len - 1 < 2 ^ 63)
    (hchk : physbuf_check pt base len = true) :
    phys_addr pt (base + (len - 1)) = phys_addr pt base + (len - 1) := by
  simp only [physbuf_check, beq_iff_eq] at hchk
  have hU : U64MOD = 18446744073709551616 := by norm_num [U64MOD]
  rw [hU] at hchk
  have h63 : (2 : Nat) ^ 63 = 9223372036854775808 := by norm_num
  rw [h63] at hA hB hL
  omega

/-- Witness for C2_physbuf_endpoints on an identity-mapped two-byte buffer. -/
theorem C2_physbuf_endpoints_witness :
    (1 ≤ 2 ∧ physbuf_check (fun p => p) 0 2 = true)
  ∧ phys_addr (fun p => p) (0 + (2 - 1)) = phys_addr (fun p => p) 0 + (2 - 1) :=
  ⟨⟨by decide, by decide⟩,
    C2_physbuf_endpoints (fun p => p) 0 2 (by decide) (by decide) (by decide) (by decide)
      (by decide)⟩

/-- Claim C3, counterexample: with two interfaces whose polls both report a
change, the pump loop's `changed = changed || iface.poll()` short-circuits:
only interface 0 is polled, so poll is not called once on each registered
interface. -/
theorem C3_pump_poll_counterexample :
    (keep_pumping_poll_phase [true, true]).2 = [(0, false)]
  ∧ (keep_pumping_poll_phase [true, true]).2.map Prod.fst ≠ List.range 2 := by
  decide

/-- Claim C3, amended: on each iteration the pump loop polls the interfaces
in order only until one returns true (Rust `||` short-circuits); interfaces
after the first reported change are not polled in that iteration.  The
changed flag equals the OR of the per-interface results. -/
theorem C3_pump_poll_amended (results : List Bool) :
    (keep_pumping_poll_phase results).1 = results.any id
  ∧ (keep_pumping_poll_phase results).2
      = (List.range ((results.takeWhile (fun r => !r)).length
          + if results.any id then 1 else 0)).map (fun k => (k, false)) := by
  constructor
  · exact pollPhaseGo_changed false results 0
  · have h := pollPhaseGo_events false results 0
    simpa using h

/-- Claim C4, counterexample: the single poll performed by one iteration of
the pump task's loop (keep_pumping_interfaces) runs with interrupts enabled
(event flag false); the without_interrupts wrapper present in
pump_interfaces is absent from the pump task's loop. -/
theorem C4_pump_irq_counterexample :
    (keep_pumping_poll_phase [false]).2 = [(0, false)]
  ∧ ¬ ((0, true) ∈ (keep_pumping_poll_phase [false]).2) := by
  decide

/-- Claim C4, amended: in the pump task's loop every poll call executes with
interrupts enabled; only the separate pump_interfaces helper (not called by
the pump task) wraps each poll in without_interrupts. -/
theorem C4_pump_irq_amended (results : List Bool) :
    ((keep_pumping_poll_phase results).2.all (fun e => e.2 == false)) = true
  ∧ ((pump_interfaces results).2.all (fun e => e.2 == true)) = true :=
  ⟨pollPhaseGo_flag false results 0 false, pollPhaseGo_flag true results 0 false⟩

/-- Claim C5: if the CBA value and the advanced read offset both have
residue at least 16 modulo RX_BUFFER_LEN, receive_packet completes without
either CAPR write-back subtraction underflowing. -/
theorem C5_receive_packet_no_underflow (s : RxState)
    (h1 : RX_BUFFER_PADDING ≤ s.cba % RX_BUFFER_LEN)
    (h2 : RX_BUFFER_PADDING ≤ rx_advanced_offset s % RX_BUFFER_LEN) :
    rxOk (receive_packet s) = true := by
  unfold receive_packet
  split
  · rfl
  · split
    · split
      · next hlt => exact absurd h1 (Nat.not_le.mpr hlt)
      · rfl
    · split
      · next hlt => exact absurd h2 (Nat.not_le.mpr hlt)
      · rfl

/-- Witness for C5_receive_packet_no_underflow: empty ring, CBA = 16. -/
theorem C5_receive_packet_witness :
    (RX_BUFFER_PADDING ≤ (RxState.mk 0 16 0 (fun _ => 0) 0).cba % RX_BUFFER_LEN
  ∧ RX_BUFFER_PADDING ≤ rx_advanced_offset (RxState.mk 0 16 0 (fun _ => 0) 0) % RX_BUFFER_LEN)
  ∧ rxOk (receive_packet (RxState.mk 0 16 0 (fun _ => 0) 0)) = true :=
  ⟨⟨by decide, by decide⟩,
    C5_receive_packet_no_underflow (RxState.mk 0 16 0 (fun _ => 0) 0) (by decide) (by decide)⟩

/-- Claim C6, counterexample: at CLOCK = 1, time_ms() returns 0 (Rust
`as i64` truncates toward zero) while rounding time()·1000 to the nearest
integer gives 1. -/
theorem C6_time_ms_counterexample :
    time_ms 1 = 0
  ∧ round (time 1 * 1000) = 1
  ∧ time_ms 1 ≠ round (time 1 * 1000) := by
  have hms : time_ms 1 = 0 := by
    have h : time_ms 1 = Int.tdiv 715800 715909 := by
      norm_num [time_ms, time, f64_as_i64, PIT_INTERVAL, PIT_FREQUENCY, PIT_DIVIDER]
    rw [h]
    decide
  have hrd : round (time 1 * 1000) = 1 := by
    rw [round_eq]
    norm_num [time, PIT_INTERVAL, PIT_FREQUENCY, PIT_DIVIDER]
  exact ⟨hms, hrd, by rw [hms, hrd]; decide⟩

/-- Claim C6, amended: time() returns CLOCK × PIT_INTERVAL seconds, and
time_ms() returns time()·1000 truncated toward zero (equal to its floor,
as the value is nonnegative) — not rounded to nearest. -/
theorem C6_time_truncates (c : Nat) :
    time c = (c : ℚ) * PIT_INTERVAL ∧ time_ms c = ⌊time c * 1000⌋ := by
  refine ⟨rfl, ?_⟩
  have hI : (0 : ℚ) ≤ PIT_INTERVAL := by
    norm_num [PIT_INTERVAL, PIT_FREQUENCY, PIT_DIVIDER]
  have hq : (0 : ℚ) ≤ time c * 1000 := by
    have : (0 : ℚ) ≤ time c := mul_nonneg (Nat.cast_nonneg c) hI
    linarith
  have hnum : 0 ≤ (time c * 1000).num := Rat.num_nonneg.mpr hq
  have hden : (0 : ℤ) ≤ ((time c * 1000).den : ℤ) := Int.natCast_nonneg _
  rw [time_ms, f64_as_i64, Int.tdiv_eq_ediv hnum hden, Rat.floor_def]

/-- Claim C7: at boot the PIT is programmed with divider 1193 on channel 0:
the command byte 0x36 written to port 0x43 selects channel 0 (bits 7–6 = 0),
lobyte/hibyte access (bits 5–4 = 3) and operating mode 3, square wave
(bits 3–1 = 3, BCD bit 0 = 0); then the divider's low byte 0xA9 and high
byte 0x04 go to data port 0x40. -/
theorem C7_pit_mode3_square_wave :
    set_pit_frequency_divider PIT_DIVIDER 0 = [(0x43, 0x36), (0x40, 0xA9), (0x40, 0x04)]
  ∧ ((0x36 >>> 1) &&& 0x7 = 3 ∧ (0x36 >>> 4) &&& 0x3 = 3 ∧ (0x36 >>> 6) &&& 0x3 = 0
      ∧ 0x36 &&& 1 = 0)
  ∧ (0xA9 = 1193 % 256 ∧ 0x04 = 1193 / 256) := by
  decide

/-- Claim C8, counterexample: IcmpSocket::send unwraps the protocol
engine's result, so when the tx packet buffer cannot accommodate the
message the kernel panics instead of returning the error. -/
theorem C8_icmp_send_counterexample :
    icmp_socket_send (Except.error IcmpSendErr.bufferFull) = IcmpSendOutcome.panicked :=
  rfl

/-- Claim C8, amended: bind and recv surface the protocol engine's errors
verbatim as enum variants, but IcmpSocket::send does not: it returns no
error value, and panics (via unwrap) on any engine send error, including
tx buffer exhaustion. -/
theorem C8_icmp_errors_amended (b : Except IcmpBindErr Unit)
    (r : Except IcmpRecvErr (List Nat × Nat)) (e : IcmpSendErr) :
    icmp_socket_bind b = b
  ∧ icmp_socket_try_recv true r = some r
  ∧ icmp_socket_send (Except.error e) = IcmpSendOutcome.panicked
  ∧ icmp_socket_send (Except.ok ()) = IcmpSendOutcome.sent :=
  ⟨rfl, rfl, rfl, rfl⟩

/-- Claim C9: scan_devices is idempotent — after a first call, a second
call returns the registry unchanged and performs zero config-space reads. -/
theorem C9_scan_devices_idempotent (cfg : Cfg) (st : Option (List PciDevice)) :
    scan_devices cfg (scan_devices cfg st).1 = ((scan_devices cfg st).1, 0) := by
  cases st <;> rfl

/-- Claim C10: io_base writes the command register (register 1) with bit 2
newly set and every other bit preserved, modifies no other config register,
and returns the BAR0 snapshot with the low four bits masked (x &&& 0xFFF0,
which already clears every bit at or above bit 16). -/
theorem C10_io_base_frame_effect (dev : PciDevice) (regs : Nat → Nat) :
    (∀ r, (io_base dev regs).1 r = if r = 1 then regs 1 ||| 0x4 else regs r)
  ∧ (∀ k, Nat.testBit ((io_base dev regs).1 1) k
        = (Nat.testBit (regs 1) k || decide (k = 2)))
  ∧ (io_base dev regs).2 = dev.base_addresses.headD 0 &&& 0xFFF0 := by
  refine ⟨?_, ?_, ?_⟩
  · intro r
    simp [io_base, enable_mastering, pci_write_reg]
  · intro k
    have h1 : (io_base dev regs).1 1 = regs 1 ||| 4 := by
      simp [io_base, enable_mastering, pci_write_reg]
    have h4 : Nat.testBit 4 k = decide (k = 2) := by
      have h2p : (4 : Nat) = 2 ^ 2 := by norm_num
      rw [h2p, Nat.testBit_two_pow]
      simp [eq_comm]
    rw [h1, Nat.testBit_or, h4]
  · simp only [io_base]
    exact mod65536_and_fff0 _
